import Mathlib

/-!
Verification of the compaction-scheduling core of
`src/meta/src/hummock/compaction_scheduler.rs`.

The development shallowly embeds the Rust code:

* `ChannelState` models `CompactionRequestChannel`: the unbounded mpsc
  buffer (`buffer`, FIFO, head = next message `recv` returns), the
  `scheduled : Mutex<HashSet<CompactionGroupId>>` dedup set (`scheduled`,
  as a `Finset`), and whether the receiver has been dropped (`closed`;
  `UnboundedSender::send` fails exactly when the receiver is gone).
* `try_send`, `unschedule` follow the source lines 52-66.
* `dequeue` is the consumer's composite step at lines 117 and 130 of
  `CompactionScheduler::start`: `request_rx.recv()` yielding a group
  immediately followed by `unschedule` on that group.
* `pick_and_assign` and its inner `'send_task` retry loop (lines 136-211)
  are embedded as functions over an environment oracle that supplies the
  results of the external collaborators (`get_compact_task`,
  `next_compactor`, the compactor send, `assign_compaction_task`); every
  externally visible effect is recorded in a list of `Action`s.
* `dispatch_loop` embeds the `'compaction_trigger` loop (lines 115-132)
  over a trace of `tokio::select!` outcomes.

`CompactionGroupId` (a `u64`) and the opaque compact task are modelled as
`Nat`; none of the verified properties depend on the 64-bit bound.
-/

namespace CompactionScheduler

/-- State of `CompactionRequestChannel`: the unconsumed messages of the
unbounded channel in FIFO order, the `scheduled` dedup set, and whether
the receiver half has been dropped (in which case `request_tx.send`
returns `Err`). -/
structure ChannelState where
  buffer : List Nat
  scheduled : Finset Nat
  closed : Bool
deriving DecidableEq

/-- The initial channel built by `CompactionRequestChannel::new`:
empty buffer, empty `scheduled` set, receiver alive. -/
def initChannel : ChannelState :=
  { buffer := [], scheduled := ∅, closed := false }

/-- `CompactionRequestChannel::try_send` (lines 52-62): if the group is
already in `scheduled`, return `false`; otherwise attempt
`request_tx.send` (which succeeds iff the receiver is still alive), and
on success insert the group into `scheduled` and return `true`. -/
def try_send (s : ChannelState) (g : Nat) : ChannelState × Bool :=
  if g ∈ s.scheduled then (s, false)
  else if s.closed then (s, false)
  else ({ s with buffer := s.buffer ++ [g], scheduled := insert g s.scheduled }, true)

/-- `CompactionRequestChannel::unschedule` (lines 64-66): remove the
group from `scheduled`, leaving the buffer untouched. -/
def unschedule (s : ChannelState) (g : Nat) : ChannelState :=
  { s with scheduled := s.scheduled.erase g }

/-- The consumer's dequeue step in `CompactionScheduler::start`:
`request_rx.recv()` returning `Some(group)` (line 117) immediately
followed by `self.request_channel.unschedule(group)` (line 130).
Returns `none` when the buffer is empty (no message to receive). -/
def dequeue (s : ChannelState) : ChannelState × Option Nat :=
  match s.buffer with
  | [] => (s, none)
  | g :: rest => (unschedule { s with buffer := rest } g, some g)

/-- Deliveries obtained by running the consumer's dequeue step `n`
times: the sequence of group ids the dispatch loop would receive from
the current channel state if no further `try_send` arrived. -/
def consumeFuel : Nat → ChannelState → List Nat
  | 0, _ => []
  | n + 1, s =>
    match dequeue s with
    | (_, none) => []
    | (s', some g) => g :: consumeFuel n s'

/-- States reachable from `initChannel` under the channel's operations:
producer `try_send`, the consumer's dequeue (receive + immediate
`unschedule` of the received group, lines 117/130), and the receiver
being dropped (which closes the channel for senders). -/
inductive Reachable : ChannelState → Prop
  | init : Reachable initChannel
  | send {s : ChannelState} (g : Nat) : Reachable s → Reachable (try_send s g).1
  | consume {s s' : ChannelState} {g : Nat} : Reachable s →
      dequeue s = (s', some g) → Reachable s'
  | close {s : ChannelState} : Reachable s →
      Reachable { s with closed := true }

/-- The channel invariant: the buffer never holds two signals for the
same group, and a group is in the `scheduled` set iff a signal for it
sits unconsumed in the buffer. -/
def ChanInv (s : ChannelState) : Prop :=
  s.buffer.Nodup ∧ ∀ g : Nat, g ∈ s.scheduled ↔ g ∈ s.buffer

lemma chanInv_init : ChanInv initChannel := by
  constructor
  · simp [initChannel]
  · intro g
    simp [initChannel]

lemma chanInv_try_send {s : ChannelState} (h : ChanInv s) (g : Nat) :
    ChanInv (try_send s g).1 := by
  obtain ⟨hnd, hmem⟩ := h
  by_cases hg : g ∈ s.scheduled
  · simpa [try_send, hg] using ⟨hnd, hmem⟩
  · by_cases hc : s.closed
    · simpa [try_send, hg, hc] using ⟨hnd, hmem⟩
    · have hc' : s.closed = false := Bool.not_eq_true _ ▸ hc
      refine ⟨?_, ?_⟩
      · simp only [try_send, if_neg hg, hc', if_neg Bool.false_ne_true]
        have hgb : g ∉ s.buffer := fun hb => hg ((hmem g).mpr hb)
        simpa [List.nodup_append] using ⟨hnd, hgb⟩
      · intro a
        simp only [try_send, if_neg hg, hc', if_neg Bool.false_ne_true]
        simp only [Finset.mem_insert, List.mem_append, List.mem_singleton]
        rw [hmem a]
        tauto

lemma chanInv_dequeue {s s' : ChannelState} {g : Nat} (h : ChanInv s)
    (hd : dequeue s = (s', some g)) : ChanInv s' := by
  obtain ⟨hnd, hmem⟩ := h
  cases hb : s.buffer with
  | nil => simp [dequeue, hb] at hd
  | cons x rest =>
    simp only [dequeue, hb] at hd
    obtain ⟨hs', hx⟩ := Prod.mk.injEq .. ▸ hd
    cases Option.some.injEq .. ▸ hx
    subst hs'
    have hndr : rest.Nodup := by
      rw [hb] at hnd
      exact (List.nodup_cons.mp hnd).2
    have hgr : g ∉ rest := by
      rw [hb] at hnd
      exact (List.nodup_cons.mp hnd).1
    refine ⟨hndr, ?_⟩
    intro a
    simp only [unschedule, Finset.mem_erase]
    constructor
    · rintro ⟨hag, has⟩
      have := (hmem a).mp has
      rw [hb] at this
      rcases List.mem_cons.mp this with h1 | h2
      · exact absurd h1 hag
      · exact h2
    · intro har
      refine ⟨?_, (hmem a).mpr (by rw [hb]; exact List.mem_cons_of_mem _ har)⟩
      rintro rfl
      exact hgr har

lemma chanInv_close {s : ChannelState} (h : ChanInv s) :
    ChanInv { s with closed := true } := h

lemma reachable_chanInv {s : ChannelState} (h : Reachable s) : ChanInv s := by
  induction h with
  | init => exact chanInv_init
  | send g _ ih => exact chanInv_try_send ih g
  | consume _ hd ih => exact chanInv_dequeue ih hd
  | close _ ih => exact chanInv_close ih

/-- Outcome of the bounded send to the compactor inside `pick_and_assign`
(lines 169-178): the inner future completed with `Ok` within the 5s
timeout, completed with a transport `Err` within the timeout, or the
timeout elapsed. -/
inductive SendOutcome
  | delivered
  | transportError
  | timedOut
deriving DecidableEq, Repr

/-- The timeout wrapped around the compactor send, in seconds
(`Duration::from_secs(5)`, line 170). -/
def sendTimeoutSecs : Nat := 5

/-- Backoff slept when no compactor is available, in seconds
(`Duration::from_secs(60)`, line 161). -/
def noCompactorBackoffSecs : Nat := 60

/-- The `send_task` closure (lines 169-178):
`tokio::time::timeout(5s, send.is_ok()).await.unwrap_or(false)`.
The `Option Bool` models the `Result` of `timeout` (`none` = elapsed);
`.getD false` is `.unwrap_or(false)`. -/
def send_task (o : SendOutcome) : Bool :=
  (match o with
   | SendOutcome.delivered => some true
   | SendOutcome.transportError => some false
   | SendOutcome.timedOut => none).getD false

/-- Classification of the `Err` returned by `assign_compaction_task`,
as matched at lines 200-206 of the source: `Error::InvalidContext` and
`Error::CompactorUnreachable` are named explicitly, every other variant
of `crate::hummock::error::Error` falls into the wildcard arm. -/
inductive AssignError
  | invalidContext
  | compactorUnreachable
  | otherError
deriving DecidableEq, Repr

/-- Environment response for one iteration of the `'send_task` retry
loop: the compactor (context id) produced by
`compactor_manager.next_compactor()`, the outcome of the bounded send,
and the result of `assign_compaction_task` (`none` = `Ok`). -/
structure RetryStep where
  next_compactor : Option Nat
  send : SendOutcome
  assign : Option AssignError
deriving DecidableEq, Repr

/-- Externally visible effects of `pick_and_assign`, in program order. -/
inductive Action
  | getCompactTask
  | nextCompactor (res : Option Nat)
  | sleepSecs (n : Nat)
  | assignCall (cid : Nat) (delivered : Bool) (result : Option AssignError)
  | removeCompactor (cid : Nat)
  | trySendGroup (g : Nat) (accepted : Bool)
deriving DecidableEq, Repr

/-- The `match err` at lines 200-206: `InvalidContext` and
`CompactorUnreachable` remove the selected compactor from the manager,
the wildcard arm does nothing. -/
def removeActsFor (cid : Nat) : AssignError → List Action
  | AssignError.invalidContext => [Action.removeCompactor cid]
  | AssignError.compactorUnreachable => [Action.removeCompactor cid]
  | AssignError.otherError => []

/-- The `'send_task` retry loop (lines 156-210), driven by the oracle
list of environment responses (one `RetryStep` per iteration). Returns
the channel state, the recorded actions, and whether the loop exited
via `break 'send_task` (`false` means the oracle ran out with the loop
still retrying: the loop has no failure exit of its own).

Per iteration, mirroring the source: if `next_compactor()` is `None`,
warn and sleep 60s, then `continue`; otherwise evaluate the bounded
send to a `Bool`, call `assign_compaction_task`; on `Ok` call
`request_channel.try_send(group)` and `break`; on `Err` remove the
compactor iff the error is `InvalidContext` or `CompactorUnreachable`,
then `continue`. -/
def send_task_loop (g : Nat) (s : ChannelState) :
    List RetryStep → ChannelState × List Action × Bool
  | [] => (s, [], false)
  | step :: rest =>
    match step.next_compactor with
    | none =>
      let r := send_task_loop g s rest
      (r.1, Action.nextCompactor none :: Action.sleepSecs noCompactorBackoffSecs :: r.2.1,
        r.2.2)
    | some cid =>
      let delivered := send_task step.send
      match step.assign with
      | none =>
        let p := try_send s g
        (p.1, [Action.nextCompactor (some cid), Action.assignCall cid delivered none,
          Action.trySendGroup g p.2], true)
      | some e =>
        let r := send_task_loop g s rest
        (r.1, Action.nextCompactor (some cid) :: Action.assignCall cid delivered (some e) ::
          removeActsFor cid e ++ r.2.1, r.2.2)

/-- Result of `hummock_manager.get_compact_task()` (line 139):
`Ok(Some(task))`, `Ok(None)`, or `Err`. The task payload is opaque. -/
inductive FetchResult
  | task (t : Nat)
  | noTask
  | fetchErr
deriving DecidableEq, Repr

/-- Environment oracle for one `pick_and_assign` call: the fetch result
and the per-iteration responses of the retry loop. -/
structure PickEnv where
  fetch : FetchResult
  steps : List RetryStep
deriving DecidableEq, Repr

/-- `CompactionScheduler::pick_and_assign` (lines 136-211): fetch a
task exactly once; on `Ok(None)` return silently, on `Err` log and
return, on `Ok(Some(task))` run the `'send_task` retry loop. -/
def pick_and_assign (env : PickEnv) (g : Nat) (s : ChannelState) :
    ChannelState × List Action × Bool :=
  match env.fetch with
  | FetchResult.noTask => (s, [Action.getCompactTask], true)
  | FetchResult.fetchErr => (s, [Action.getCompactTask], true)
  | FetchResult.task _ =>
    let r := send_task_loop g s env.steps
    (r.1, Action.getCompactTask :: r.2.1, r.2.2)

/-- One `tokio::select!` outcome at the top of the dispatch loop
(lines 116-129): the request channel yielded a group (with the
environment its `pick_and_assign` call will see), the request channel
is closed (`recv` returned `None`), or the shutdown channel fired. -/
inductive SelectOutcome
  | recvGroup (g : Nat) (env : PickEnv)
  | recvClosed
  | shutdownSignal

/-- How a run of the dispatch loop ended: `stopped` means it broke out
of `'compaction_trigger`; `outOfTrace` means the oracle trace was
exhausted with the loop still running. -/
inductive LoopExit
  | stopped
  | outOfTrace
deriving DecidableEq, Repr

/-- The `'compaction_trigger` loop of `CompactionScheduler::start`
(lines 115-132), driven by a trace of select outcomes. On a received
group: `unschedule` it (line 130), then `pick_and_assign` (line 131),
then loop. On channel-closed or shutdown: `break`. -/
def dispatch_loop (s : ChannelState) : List SelectOutcome → ChannelState × LoopExit
  | [] => (s, LoopExit.outOfTrace)
  | SelectOutcome.recvClosed :: _ => (s, LoopExit.stopped)
  | SelectOutcome.shutdownSignal :: _ => (s, LoopExit.stopped)
  | SelectOutcome.recvGroup g env :: rest =>
    dispatch_loop (pick_and_assign env g (unschedule s g)).1 rest

lemma consumeFuel_eq_buffer (l : List Nat) (sch : Finset Nat) (c : Bool) :
    consumeFuel l.length { buffer := l, scheduled := sch, closed := c } = l := by
  induction l generalizing sch with
  | nil => simp [consumeFuel]
  | cons x rest ih =>
    simp only [List.length_cons, consumeFuel, dequeue, unschedule]
    exact congrArg (x :: ·) (ih (sch.erase x))

lemma try_send_not_scheduled {s : ChannelState} {g : Nat}
    (hopen : s.closed = false) (hns : g ∉ s.scheduled) :
    try_send s g =
      ({ s with buffer := s.buffer ++ [g], scheduled := insert g s.scheduled }, true) := by
  simp [try_send, hns, hopen]

/-- C1: `try_send(G)` on a group already in the pending set leaves the
channel and the set unchanged and returns `false`; on a group not in the
set (consumer alive) it appends exactly one signal for `G` to the
buffer, inserts `G` into the set, and returns `true` — so two
`try_send(G)` calls before `G` is dequeued put exactly one signal for
`G` in the buffer, the second call returning `false` and changing
nothing. -/
theorem try_send_dedup_exactly_one_signal (s : ChannelState) (g : Nat)
    (hreach : Reachable s) (hopen : s.closed = false) (hns : g ∉ s.scheduled) :
    (∀ t : ChannelState, g ∈ t.scheduled → try_send t g = (t, false)) ∧
    (try_send s g).2 = true ∧
    (try_send s g).1.buffer = s.buffer ++ [g] ∧
    (try_send s g).1.scheduled = insert g s.scheduled ∧
    try_send (try_send s g).1 g = ((try_send s g).1, false) ∧
    (try_send (try_send s g).1 g).1.buffer.count g = 1 := by
  have hnb : g ∉ s.buffer := fun hb => hns (((reachable_chanInv hreach).2 g).mpr hb)
  have h1 := try_send_not_scheduled hopen hns
  have h2 : try_send (try_send s g).1 g = ((try_send s g).1, false) := by
    rw [h1]
    simp [try_send]
  refine ⟨fun t ht => by simp [try_send, ht], by rw [h1], by rw [h1], by rw [h1], h2, ?_⟩
  rw [h2, h1]
  simp [List.count_append, List.count_eq_zero_of_not_mem hnb]

/-- C1 witness: both hypotheses hold at the empty initial channel with
group `7`, and the conclusion follows by the theorem. -/
theorem try_send_dedup_exactly_one_signal_witness :
    (∀ t : ChannelState, 7 ∈ t.scheduled → try_send t 7 = (t, false)) ∧
    (try_send initChannel 7).2 = true ∧
    (try_send initChannel 7).1.buffer = initChannel.buffer ++ [7] ∧
    (try_send initChannel 7).1.scheduled = insert 7 initChannel.scheduled ∧
    try_send (try_send initChannel 7).1 7 = ((try_send initChannel 7).1, false) ∧
    (try_send (try_send initChannel 7).1 7).1.buffer.count 7 = 1 :=
  try_send_dedup_exactly_one_signal initChannel 7 Reachable.init rfl (by decide)

/-- C2: the dispatch loop unschedules the received group before calling
`pick_and_assign` on it (the state handed to `pick_and_assign` is the
post-`unschedule` state), so a `try_send(G)` issued after `G`'s signal
was dequeued is accepted (`true`), puts `G` back in the buffer, and `G`
is delivered again by a later consumer iteration. -/
theorem trigger_after_dequeue_not_lost (s s' : ChannelState) (g : Nat)
    (hreach : Reachable s) (hopen : s.closed = false)
    (hd : dequeue s = (s', some g)) :
    (∀ (t : ChannelState) (env : PickEnv) (rest : List SelectOutcome),
      dispatch_loop t (SelectOutcome.recvGroup g env :: rest) =
        dispatch_loop (pick_and_assign env g (unschedule t g)).1 rest) ∧
    (try_send s' g).2 = true ∧
    g ∈ (try_send s' g).1.buffer ∧
    g ∈ consumeFuel (try_send s' g).1.buffer.length (try_send s' g).1 := by
  obtain ⟨hnd, hmem⟩ := reachable_chanInv hreach
  cases hb : s.buffer with
  | nil => simp [dequeue, hb] at hd
  | cons x rest =>
    simp only [dequeue, hb] at hd
    obtain ⟨hs', hx⟩ := Prod.mk.injEq .. ▸ hd
    cases Option.some.injEq .. ▸ hx
    subst hs'
    have hns : g ∉ (unschedule { s with buffer := rest } g).scheduled := by
      simp [unschedule]
    have hopen' : (unschedule { s with buffer := rest } g).closed = false := hopen
    have h1 := try_send_not_scheduled hopen' hns
    rw [h1]
    refine ⟨fun t env r => rfl, rfl, by simp, ?_⟩
    rw [show ({ unschedule { s with buffer := rest } g with
          buffer := (unschedule { s with buffer := rest } g).buffer ++ [g],
          scheduled := insert g (unschedule { s with buffer := rest } g).scheduled } :
        ChannelState) =
        { buffer := rest ++ [g], scheduled := insert g (s.scheduled.erase g),
          closed := s.closed } from rfl]
    rw [consumeFuel_eq_buffer]
    simp

/-- C2 witness: from the reachable one-element channel holding group
`7`, the dequeue of `7` followed by a fresh `try_send 7` is accepted
and `7` is delivered again. -/
theorem trigger_after_dequeue_not_lost_witness :
    (∀ (t : ChannelState) (env : PickEnv) (rest : List SelectOutcome),
      dispatch_loop t (SelectOutcome.recvGroup 7 env :: rest) =
        dispatch_loop (pick_and_assign env 7 (unschedule t 7)).1 rest) ∧
    (try_send initChannel 7).2 = true ∧
    7 ∈ (try_send initChannel 7).1.buffer ∧
    7 ∈ consumeFuel (try_send initChannel 7).1.buffer.length (try_send initChannel 7).1 :=
  trigger_after_dequeue_not_lost (try_send initChannel 7).1 initChannel 7
    (Reachable.send 7 Reachable.init) (by decide) (by decide)

/-- C3: in every state reachable under `try_send`, the consumer dequeue
(receive plus its immediate `unschedule`), and channel closure, a group
is in the `scheduled` pending set iff a signal for it sits unconsumed
in the channel buffer. -/
theorem pendingSet_iff_signal_buffered (s : ChannelState) (g : Nat)
    (hreach : Reachable s) : g ∈ s.scheduled ↔ g ∈ s.buffer :=
  (reachable_chanInv hreach).2 g

/-- C3 witness: the invariant instantiated at the reachable state
reached by one `try_send` of group `7`. -/
theorem pendingSet_iff_signal_buffered_witness :
    7 ∈ (try_send initChannel 7).1.scheduled ↔ 7 ∈ (try_send initChannel 7).1.buffer :=
  pendingSet_iff_signal_buffered (try_send initChannel 7).1 7
    (Reachable.send 7 Reachable.init)

/-- C10: when the receiver has been dropped (channel closed), `try_send`
on a group not in the pending set returns `false` and leaves the whole
state — buffer and pending set — unchanged. -/
theorem try_send_closed_channel_unchanged (s : ChannelState) (g : Nat)
    (hclosed : s.closed = true) (hns : g ∉ s.scheduled) :
    try_send s g = (s, false) := by
  simp [try_send, hns, hclosed]

/-- C10 witness: the closed empty channel with group `7`. -/
theorem try_send_closed_channel_unchanged_witness :
    try_send { initChannel with closed := true } 7 =
      ({ initChannel with closed := true }, false) :=
  try_send_closed_channel_unchanged { initChannel with closed := true } 7 rfl
    (by decide)

/-- Recognizes the task-fetch effect (`get_compact_task`). -/
def isFetchAction : Action → Bool
  | Action.getCompactTask => true
  | _ => false

/-- Recognizes a re-enqueue attempt (`request_channel.try_send`). -/
def isTrySendAction : Action → Bool
  | Action.trySendGroup _ _ => true
  | _ => false

/-- Recognizes a call to `assign_compaction_task` (which also evaluates
the compactor send). -/
def isAssignCallAction : Action → Bool
  | Action.assignCall _ _ _ => true
  | _ => false

/-- Recognizes a call to `assign_compaction_task` that returned `Ok`. -/
def isSuccessfulAssignAction : Action → Bool
  | Action.assignCall _ _ none => true
  | _ => false

lemma send_task_loop_noCompactor (g : Nat) (s : ChannelState) (step : RetryStep)
    (rest : List RetryStep) (hc : step.next_compactor = none) :
    send_task_loop g s (step :: rest) =
      ((send_task_loop g s rest).1,
       Action.nextCompactor none :: Action.sleepSecs noCompactorBackoffSecs ::
         (send_task_loop g s rest).2.1,
       (send_task_loop g s rest).2.2) := by
  simp [send_task_loop, hc]

lemma send_task_loop_success (g : Nat) (s : ChannelState) (step : RetryStep)
    (rest : List RetryStep) (cid : Nat) (hc : step.next_compactor = some cid)
    (ha : step.assign = none) :
    send_task_loop g s (step :: rest) =
      ((try_send s g).1,
       [Action.nextCompactor (some cid),
        Action.assignCall cid (send_task step.send) none,
        Action.trySendGroup g (try_send s g).2], true) := by
  simp [send_task_loop, hc, ha]

lemma send_task_loop_assignErr (g : Nat) (s : ChannelState) (step : RetryStep)
    (rest : List RetryStep) (cid : Nat) (e : AssignError)
    (hc : step.next_compactor = some cid) (ha : step.assign = some e) :
    send_task_loop g s (step :: rest) =
      ((send_task_loop g s rest).1,
       Action.nextCompactor (some cid) ::
         Action.assignCall cid (send_task step.send) (some e) ::
         removeActsFor cid e ++ (send_task_loop g s rest).2.1,
       (send_task_loop g s rest).2.2) := by
  simp [send_task_loop, hc, ha]

lemma getCompactTask_not_mem_send_task_loop (g : Nat) (s : ChannelState)
    (steps : List RetryStep) :
    Action.getCompactTask ∉ (send_task_loop g s steps).2.1 := by
  induction steps with
  | nil => simp [send_task_loop]
  | cons step rest ih =>
    cases hc : step.next_compactor with
    | none =>
      rw [send_task_loop_noCompactor g s step rest hc]
      simp [ih]
    | some cid =>
      cases ha : step.assign with
      | none =>
        rw [send_task_loop_success g s step rest cid hc ha]
        simp
      | some e =>
        rw [send_task_loop_assignErr g s step rest cid e hc ha]
        cases e <;> simp [removeActsFor, ih]

lemma send_task_loop_countP_fetch (g : Nat) (s : ChannelState)
    (steps : List RetryStep) :
    (send_task_loop g s steps).2.1.countP isFetchAction = 0 := by
  rw [List.countP_eq_zero]
  intro a ha
  cases a with
  | getCompactTask => exact absurd ha (getCompactTask_not_mem_send_task_loop g s steps)
  | nextCompactor r => simp [isFetchAction]
  | sleepSecs n => simp [isFetchAction]
  | assignCall c d r => simp [isFetchAction]
  | removeCompactor c => simp [isFetchAction]
  | trySendGroup h b => simp [isFetchAction]

lemma send_task_loop_exit_is_success (g : Nat) (s : ChannelState)
    (steps : List RetryStep) (h : (send_task_loop g s steps).2.2 = true) :
    ∃ st ∈ steps, st.next_compactor.isSome = true ∧ st.assign = none := by
  induction steps with
  | nil => simp [send_task_loop] at h
  | cons step rest ih =>
    cases hc : step.next_compactor with
    | none =>
      rw [send_task_loop_noCompactor g s step rest hc] at h
      obtain ⟨st, hst, hp⟩ := ih h
      exact ⟨st, List.mem_cons_of_mem _ hst, hp⟩
    | some cid =>
      cases ha : step.assign with
      | none => exact ⟨step, List.mem_cons_self _ _, by simp [hc, ha]⟩
      | some e =>
        rw [send_task_loop_assignErr g s step rest cid e hc ha] at h
        obtain ⟨st, hst, hp⟩ := ih h
        exact ⟨st, List.mem_cons_of_mem _ hst, hp⟩

lemma send_task_loop_congr (g : Nat) (s : ChannelState) (pre : List RetryStep)
    (hpre : ∀ st ∈ pre, st.next_compactor = none ∨ st.assign ≠ none)
    (t₁ t₂ : List RetryStep)
    (hsame : send_task_loop g s t₁ = send_task_loop g s t₂) :
    send_task_loop g s (pre ++ t₁) = send_task_loop g s (pre ++ t₂) := by
  revert hpre
  induction pre with
  | nil => intro _; simpa using hsame
  | cons st pre' ih =>
    intro hpre
    have hih := ih (fun x hx => hpre x (List.mem_cons_of_mem st hx))
    cases hc : st.next_compactor with
    | none =>
      rw [List.cons_append, List.cons_append,
        send_task_loop_noCompactor g s st _ hc,
        send_task_loop_noCompactor g s st _ hc, hih]
    | some cid =>
      cases ha : st.assign with
      | none =>
        rcases hpre st (List.mem_cons_self st pre') with hc' | ha'
        · rw [hc] at hc'; cases hc'
        · exact absurd ha ha'
      | some e =>
        rw [List.cons_append, List.cons_append,
          send_task_loop_assignErr g s st _ cid e hc ha,
          send_task_loop_assignErr g s st _ cid e hc ha, hih]

lemma send_task_loop_fail_prefix (g : Nat) (s : ChannelState)
    (pre tail : List RetryStep)
    (hpre : ∀ st ∈ pre, st.next_compactor = none ∨ st.assign ≠ none) :
    (send_task_loop g s (pre ++ tail)).1 = (send_task_loop g s tail).1 ∧
    (send_task_loop g s (pre ++ tail)).2.2 = (send_task_loop g s tail).2.2 ∧
    (send_task_loop g s (pre ++ tail)).2.1.countP isTrySendAction =
      (send_task_loop g s tail).2.1.countP isTrySendAction ∧
    (send_task_loop g s (pre ++ tail)).2.1.countP isSuccessfulAssignAction =
      (send_task_loop g s tail).2.1.countP isSuccessfulAssignAction := by
  revert hpre
  induction pre with
  | nil => intro _; simp
  | cons st pre' ih =>
    intro hpre
    obtain ⟨h1, h2, h3, h4⟩ := ih (fun x hx => hpre x (List.mem_cons_of_mem st hx))
    cases hc : st.next_compactor with
    | none =>
      rw [List.cons_append, send_task_loop_noCompactor g s st _ hc]
      refine ⟨h1, h2, ?_, ?_⟩
      · simp only [List.countP_cons]
        simpa [isTrySendAction] using h3
      · simp only [List.countP_cons]
        simpa [isSuccessfulAssignAction] using h4
    | some cid =>
      cases ha : st.assign with
      | none =>
        rcases hpre st (List.mem_cons_self st pre') with hc' | ha'
        · rw [hc] at hc'; cases hc'
        · exact absurd ha ha'
      | some e =>
        rw [List.cons_append, send_task_loop_assignErr g s st _ cid e hc ha]
        refine ⟨h1, h2, ?_, ?_⟩
        · simp only [List.countP_cons, List.countP_append]
          cases e <;> simpa [isTrySendAction, removeActsFor] using h3
        · simp only [List.countP_cons, List.countP_append]
          cases e <;> simpa [isSuccessfulAssignAction, removeActsFor] using h4

/-- C4: the dispatch loop stops iff the select trace contains a
channel-closed or shutdown outcome; a received group — whatever its
`pick_and_assign` environment does, error or retry — always continues
the loop, which re-examines the next select outcome (request channel or
shutdown) each iteration. -/
theorem dispatch_loop_stops_only_on_shutdown_or_closed (s : ChannelState)
    (tr : List SelectOutcome) :
    ((dispatch_loop s tr).2 = LoopExit.stopped ↔
      ∃ x ∈ tr, x = SelectOutcome.recvClosed ∨ x = SelectOutcome.shutdownSignal) ∧
    (∀ (t : ChannelState) (g : Nat) (env : PickEnv) (rest : List SelectOutcome),
      dispatch_loop t (SelectOutcome.recvGroup g env :: rest) =
        dispatch_loop (pick_and_assign env g (unschedule t g)).1 rest) := by
  refine ⟨?_, fun t g env rest => rfl⟩
  induction tr generalizing s with
  | nil => simp [dispatch_loop]
  | cons x rest ih =>
    cases x with
    | recvClosed => simp [dispatch_loop]
    | shutdownSignal => simp [dispatch_loop]
    | recvGroup g env =>
      have h := ih (pick_and_assign env g (unschedule s g)).1
      simp only [dispatch_loop]
      rw [h]
      simp

/-- C5: when `assign_compaction_task` fails, the compactor is removed
iff the error is `InvalidContext` or `CompactorUnreachable`, the loop
retries with the channel state untouched and the remaining oracle (same
task: the retry loop never performs a fetch), and the retry loop exits
only via a successful assign — it has no terminal failure path. -/
theorem assign_error_worker_removal_and_retry (g : Nat) (s : ChannelState)
    (step : RetryStep) (rest : List RetryStep) (cid : Nat) (e : AssignError)
    (hc : step.next_compactor = some cid) (ha : step.assign = some e) :
    send_task_loop g s (step :: rest) =
      ((send_task_loop g s rest).1,
       Action.nextCompactor (some cid) ::
         Action.assignCall cid (send_task step.send) (some e) ::
         (if e = AssignError.invalidContext ∨ e = AssignError.compactorUnreachable then
            [Action.removeCompactor cid] else []) ++ (send_task_loop g s rest).2.1,
       (send_task_loop g s rest).2.2) ∧
    (∀ steps : List RetryStep, Action.getCompactTask ∉ (send_task_loop g s steps).2.1) ∧
    (∀ steps : List RetryStep, (send_task_loop g s steps).2.2 = true →
      ∃ st ∈ steps, st.next_compactor.isSome = true ∧ st.assign = none) := by
  refine ⟨?_, fun steps => getCompactTask_not_mem_send_task_loop g s steps,
    fun steps h => send_task_loop_exit_is_success g s steps h⟩
  rw [send_task_loop_assignErr g s step rest cid e hc ha]
  cases e <;> simp [removeActsFor]

/-- C5 witness: a transient (`otherError`) failure at compactor `1`
followed by an exhausted oracle. -/
theorem assign_error_worker_removal_and_retry_witness :
    (send_task_loop 7 initChannel
        [{ next_compactor := some 1, send := SendOutcome.delivered,
           assign := some AssignError.otherError }] =
      ((send_task_loop 7 initChannel []).1,
       Action.nextCompactor (some 1) ::
         Action.assignCall 1
           (send_task (RetryStep.mk (some 1) SendOutcome.delivered
             (some AssignError.otherError)).send)
           (some AssignError.otherError) ::
         (if AssignError.otherError = AssignError.invalidContext ∨
             AssignError.otherError = AssignError.compactorUnreachable then
            [Action.removeCompactor 1] else []) ++
           (send_task_loop 7 initChannel []).2.1,
       (send_task_loop 7 initChannel []).2.2)) ∧
    (∀ steps : List RetryStep,
      Action.getCompactTask ∉ (send_task_loop 7 initChannel steps).2.1) ∧
    (∀ steps : List RetryStep,
      (send_task_loop 7 initChannel steps).2.2 = true →
      ∃ st ∈ steps, st.next_compactor.isSome = true ∧ st.assign = none) :=
  assign_error_worker_removal_and_retry 7 initChannel
    { next_compactor := some 1, send := SendOutcome.delivered,
      assign := some AssignError.otherError } [] 1 AssignError.otherError rfl rfl

/-- C6: after any run of failed iterations, a successful
`assign_compaction_task` makes the retry loop call `try_send` on the
group exactly once (unconditionally: the action records whatever result
`try_send` produced and the state becomes the `try_send` result) and
exit, ignoring the rest of the oracle — one successful assign call and
one re-enqueue attempt in total. -/
theorem assign_success_single_reenqueue (g : Nat) (s : ChannelState)
    (pre : List RetryStep) (succ : RetryStep) (rest : List RetryStep) (cid : Nat)
    (hpre : ∀ st ∈ pre, st.next_compactor = none ∨ st.assign ≠ none)
    (hc : succ.next_compactor = some cid) (ha : succ.assign = none) :
    send_task_loop g s (pre ++ succ :: rest) = send_task_loop g s (pre ++ [succ]) ∧
    (send_task_loop g s (pre ++ [succ])).1 = (try_send s g).1 ∧
    (send_task_loop g s (pre ++ [succ])).2.2 = true ∧
    (send_task_loop g s (pre ++ [succ])).2.1.countP isTrySendAction = 1 ∧
    (send_task_loop g s (pre ++ [succ])).2.1.countP isSuccessfulAssignAction = 1 := by
  have hsucc1 := send_task_loop_success g s succ rest cid hc ha
  have hsucc2 := send_task_loop_success g s succ [] cid hc ha
  have hsame : send_task_loop g s (succ :: rest) = send_task_loop g s [succ] := by
    rw [hsucc1, hsucc2]
  obtain ⟨h1, h2, h3, h4⟩ := send_task_loop_fail_prefix g s pre [succ] hpre
  refine ⟨send_task_loop_congr g s pre hpre (succ :: rest) [succ] hsame,
    ?_, ?_, ?_, ?_⟩
  · rw [h1, hsucc2]
  · rw [h2, hsucc2]
  · rw [h3, hsucc2]
    simp [isTrySendAction]
  · rw [h4, hsucc2]
    simp [isSuccessfulAssignAction]

/-- C6 witness: one transient failure at compactor `1`, then success at
compactor `2`, with trailing oracle entries that the loop ignores. -/
theorem assign_success_single_reenqueue_witness :
    send_task_loop 7 initChannel
        ([{ next_compactor := some 1, send := SendOutcome.timedOut,
            assign := some AssignError.otherError }] ++
          { next_compactor := some 2, send := SendOutcome.delivered,
            assign := none } ::
            [{ next_compactor := some 3, send := SendOutcome.delivered,
               assign := none }]) =
      send_task_loop 7 initChannel
        ([{ next_compactor := some 1, send := SendOutcome.timedOut,
            assign := some AssignError.otherError }] ++
          [{ next_compactor := some 2, send := SendOutcome.delivered,
             assign := none }]) ∧
    (send_task_loop 7 initChannel
        ([{ next_compactor := some 1, send := SendOutcome.timedOut,
            assign := some AssignError.otherError }] ++
          [{ next_compactor := some 2, send := SendOutcome.delivered,
             assign := none }])).1 = (try_send initChannel 7).1 ∧
    (send_task_loop 7 initChannel
        ([{ next_compactor := some 1, send := SendOutcome.timedOut,
            assign := some AssignError.otherError }] ++
          [{ next_compactor := some 2, send := SendOutcome.delivered,
             assign := none }])).2.2 = true ∧
    (send_task_loop 7 initChannel
        ([{ next_compactor := some 1, send := SendOutcome.timedOut,
            assign := some AssignError.otherError }] ++
          [{ next_compactor := some 2, send := SendOutcome.delivered,
             assign := none }])).2.1.countP isTrySendAction = 1 ∧
    (send_task_loop 7 initChannel
        ([{ next_compactor := some 1, send := SendOutcome.timedOut,
            assign := some AssignError.otherError }] ++
          [{ next_compactor := some 2, send := SendOutcome.delivered,
             assign := none }])).2.1.countP isSuccessfulAssignAction = 1 :=
  assign_success_single_reenqueue 7 initChannel
    [{ next_compactor := some 1, send := SendOutcome.timedOut,
       assign := some AssignError.otherError }]
    { next_compactor := some 2, send := SendOutcome.delivered, assign := none }
    [{ next_compactor := some 3, send := SendOutcome.delivered, assign := none }]
    2 (by decide) rfl rfl

/-- C7: every `pick_and_assign` records exactly one task fetch; on
`Ok(None)` and on `Err` it returns with the channel untouched and no
compactor selection, no assign call, and no re-enqueue — the fetch is
never retried within the trigger. -/
theorem fetch_called_exactly_once (env : PickEnv) (g : Nat) (s : ChannelState) :
    (pick_and_assign env g s).2.1.countP isFetchAction = 1 ∧
    (env.fetch = FetchResult.noTask →
      pick_and_assign env g s = (s, [Action.getCompactTask], true)) ∧
    (env.fetch = FetchResult.fetchErr →
      pick_and_assign env g s = (s, [Action.getCompactTask], true)) := by
  refine ⟨?_, fun h => by simp [pick_and_assign, h], fun h => by simp [pick_and_assign, h]⟩
  cases hf : env.fetch with
  | noTask => simp [pick_and_assign, hf, isFetchAction]
  | fetchErr => simp [pick_and_assign, hf, isFetchAction]
  | task t =>
    simp [pick_and_assign, hf, List.countP_cons, isFetchAction,
      send_task_loop_countP_fetch]

/-- C8: when `next_compactor()` yields no compactor, the iteration
records exactly a failed selection and a 60-second sleep: no assign
call (hence no task send) and no re-enqueue are added, and the loop
then retries selection on the remaining oracle with the state
unchanged. -/
theorem no_compactor_backoff (g : Nat) (s : ChannelState) (step : RetryStep)
    (rest : List RetryStep) (hc : step.next_compactor = none) :
    noCompactorBackoffSecs = 60 ∧
    send_task_loop g s (step :: rest) =
      ((send_task_loop g s rest).1,
       Action.nextCompactor none :: Action.sleepSecs 60 ::
         (send_task_loop g s rest).2.1,
       (send_task_loop g s rest).2.2) ∧
    (send_task_loop g s (step :: rest)).2.1.countP isAssignCallAction =
      (send_task_loop g s rest).2.1.countP isAssignCallAction ∧
    (send_task_loop g s (step :: rest)).2.1.countP isTrySendAction =
      (send_task_loop g s rest).2.1.countP isTrySendAction := by
  have h := send_task_loop_noCompactor g s step rest hc
  refine ⟨rfl, h, ?_, ?_⟩
  · rw [h]
    simp [List.countP_cons, isAssignCallAction]
  · rw [h]
    simp [List.countP_cons, isTrySendAction]

/-- C8 witness: an empty-registry iteration followed by an exhausted
oracle. -/
theorem no_compactor_backoff_witness :
    noCompactorBackoffSecs = 60 ∧
    send_task_loop 7 initChannel
        [{ next_compactor := none, send := SendOutcome.delivered, assign := none }] =
      ((send_task_loop 7 initChannel []).1,
       Action.nextCompactor none :: Action.sleepSecs 60 ::
         (send_task_loop 7 initChannel []).2.1,
       (send_task_loop 7 initChannel []).2.2) ∧
    (send_task_loop 7 initChannel
        [{ next_compactor := none, send := SendOutcome.delivered,
           assign := none }]).2.1.countP isAssignCallAction =
      (send_task_loop 7 initChannel []).2.1.countP isAssignCallAction ∧
    (send_task_loop 7 initChannel
        [{ next_compactor := none, send := SendOutcome.delivered,
           assign := none }]).2.1.countP isTrySendAction =
      (send_task_loop 7 initChannel []).2.1.countP isTrySendAction :=
  no_compactor_backoff 7 initChannel
    { next_compactor := none, send := SendOutcome.delivered, assign := none } [] rfl

/-- C9: the compactor send is wrapped in the 5-second timeout; timeout
and transport error both evaluate to `false` and success to `true`, and
that boolean — never an exception — is what reaches
`assign_compaction_task` as the delivery attempt. -/
theorem send_wrapped_timeout_boolean (g : Nat) (s : ChannelState)
    (step : RetryStep) (rest : List RetryStep) (cid : Nat)
    (hc : step.next_compactor = some cid) :
    sendTimeoutSecs = 5 ∧
    send_task SendOutcome.timedOut = false ∧
    send_task SendOutcome.transportError = false ∧
    send_task SendOutcome.delivered = true ∧
    Action.assignCall cid (send_task step.send) step.assign ∈
      (send_task_loop g s (step :: rest)).2.1 := by
  refine ⟨rfl, rfl, rfl, rfl, ?_⟩
  cases ha : step.assign with
  | none =>
    rw [send_task_loop_success g s step rest cid hc ha]
    simp
  | some e =>
    rw [send_task_loop_assignErr g s step rest cid e hc ha]
    simp

/-- C9 witness: a timed-out send at compactor `1` reaches the assign
call as delivery attempt `false`. -/
theorem send_wrapped_timeout_boolean_witness :
    sendTimeoutSecs = 5 ∧
    send_task SendOutcome.timedOut = false ∧
    send_task SendOutcome.transportError = false ∧
    send_task SendOutcome.delivered = true ∧
    Action.assignCall 1
        (send_task (RetryStep.mk (some 1) SendOutcome.timedOut
          (some AssignError.otherError)).send)
        (RetryStep.mk (some 1) SendOutcome.timedOut
          (some AssignError.otherError)).assign ∈
      (send_task_loop 7 initChannel
        [{ next_compactor := some 1, send := SendOutcome.timedOut,
           assign := some AssignError.otherError }]).2.1 :=
  send_wrapped_timeout_boolean 7 initChannel
    { next_compactor := some 1, send := SendOutcome.timedOut,
      assign := some AssignError.otherError } [] 1 rfl

end CompactionScheduler
